import Mathlib

/-!
Shallow embedding of the carrier-integration library (TypeScript sources under
`src/`) together with proofs of the behavioural claims about it.

Conventions of the embedding:
* Monetary values (`parseFloat` of wire strings such as "25.50") are modelled
  as rationals (`ℚ`); the concrete values in all examples are exact decimals.
* JavaScript `throw` is modelled with `Except`; a rejected promise reason is a
  `JsReason` distinguishing `CarrierIntegrationError` instances, plain `Error`
  instances (carrying their message), and non-`Error` throwables, because the
  code branches on `instanceof`.
* Asynchronous effects (HTTP calls, the token endpoint) are modelled by
  passing the settled outcome of each external interaction as an explicit
  argument, so every function is a pure function of its inputs and of those
  outcomes.
* Wire payload fields that the TypeScript interfaces declare as required but
  that runtime JSON may nevertheless omit (the code guards some of them and
  crashes on others) are modelled as `Option`; reading a missing required
  field models the JavaScript `TypeError` as an `Except.error`.
* Timestamps produced by `new Date().toISOString()` carry no information the
  claims talk about and are omitted from the embedded `RateResponse`.
-/

namespace CarrierIntegration

/-! ## Domain model (`src/types/domain.ts`) -/

/-- Normalized service taxonomy (`ServiceLevel` enum). -/
inductive ServiceLevel where
  | OVERNIGHT
  | TWO_DAY
  | GROUND
  | EXPRESS
  | ECONOMY
  deriving DecidableEq, Repr

/-- Currency codes (`Currency` enum). -/
inductive Currency where
  | USD
  | CAD
  | EUR
  deriving DecidableEq, Repr

/-- Address information (`Address`). -/
structure Address where
  street1 : String
  street2 : Option String := none
  city : String
  state : String
  postalCode : String
  country : String
  deriving DecidableEq, Repr

/-- Package dimensions and weight (`Package`); numbers modelled as `ℚ`. -/
structure Package where
  length : ℚ
  width : ℚ
  height : ℚ
  weight : ℚ
  deriving DecidableEq, Repr

/-- Rate request (`RateRequest`). -/
structure RateRequest where
  origin : Address
  destination : Address
  packages : List Package
  serviceLevel : Option ServiceLevel := none
  deriving DecidableEq, Repr

/-- A single rate quote (`RateQuote`). -/
structure RateQuote where
  carrier : String
  serviceLevel : ServiceLevel
  baseCharge : ℚ
  discountAmount : Option ℚ := none
  finalCharge : ℚ
  currency : Currency
  estimatedDelivery : Option String := none
  warnings : Option (List String) := none
  deriving DecidableEq, Repr

/-- Structured detail payload: a record of keys to optional string values,
modelling the plain objects stored in `details`. -/
abbrev Details := List (String × Option String)

/-- Structured error surfaced to callers (`CarrierError`); `code` is the raw
string code. -/
structure CarrierError where
  code : String
  message : String
  details : Option Details := none
  deriving DecidableEq, Repr

/-- Rate response (`RateResponse`); the wall-clock `timestamp` field is
omitted (see module comment). `errors = none` models an absent field. -/
structure RateResponse where
  quotes : List RateQuote
  errors : Option (List CarrierError) := none
  deriving DecidableEq, Repr

/-! ## Error taxonomy (`src/errors/index.ts`) -/

/-- Machine-readable error codes (`ErrorCode` enum). -/
inductive ErrorCode where
  | INVALID_REQUEST
  | INVALID_ADDRESS
  | INVALID_PACKAGE
  | AUTH_FAILED
  | INVALID_CREDENTIALS
  | TOKEN_EXPIRED
  | NETWORK_ERROR
  | TIMEOUT
  | CONNECTION_REFUSED
  | HTTP_400
  | HTTP_401
  | HTTP_403
  | HTTP_404
  | HTTP_429
  | HTTP_500
  | HTTP_502
  | HTTP_503
  | HTTP_UNKNOWN
  | INVALID_RESPONSE
  | MALFORMED_JSON
  | SERVICE_UNAVAILABLE
  | RATE_LIMIT_EXCEEDED
  | UNKNOWN
  deriving DecidableEq, Repr

/-- String value of each `ErrorCode` enum member. -/
def ErrorCode.value : ErrorCode → String
  | .INVALID_REQUEST => "INVALID_REQUEST"
  | .INVALID_ADDRESS => "INVALID_ADDRESS"
  | .INVALID_PACKAGE => "INVALID_PACKAGE"
  | .AUTH_FAILED => "AUTH_FAILED"
  | .INVALID_CREDENTIALS => "INVALID_CREDENTIALS"
  | .TOKEN_EXPIRED => "TOKEN_EXPIRED"
  | .NETWORK_ERROR => "NETWORK_ERROR"
  | .TIMEOUT => "TIMEOUT"
  | .CONNECTION_REFUSED => "CONNECTION_REFUSED"
  | .HTTP_400 => "HTTP_400"
  | .HTTP_401 => "HTTP_401"
  | .HTTP_403 => "HTTP_403"
  | .HTTP_404 => "HTTP_404"
  | .HTTP_429 => "HTTP_429"
  | .HTTP_500 => "HTTP_500"
  | .HTTP_502 => "HTTP_502"
  | .HTTP_503 => "HTTP_503"
  | .HTTP_UNKNOWN => "HTTP_UNKNOWN"
  | .INVALID_RESPONSE => "INVALID_RESPONSE"
  | .MALFORMED_JSON => "MALFORMED_JSON"
  | .SERVICE_UNAVAILABLE => "SERVICE_UNAVAILABLE"
  | .RATE_LIMIT_EXCEEDED => "RATE_LIMIT_EXCEEDED"
  | .UNKNOWN => "UNKNOWN"

/-- The `CarrierIntegrationError` class. `originalError` keeps the message of
the wrapped native failure (the object identity cannot be embedded). -/
structure CarrierIntegrationError where
  code : ErrorCode
  message : String
  details : Option Details := none
  statusCode : Option Nat := none
  originalError : Option String := none
  deriving DecidableEq, Repr

/-- Method `CarrierIntegrationError.toCarrierError`. -/
def CarrierIntegrationError.toCarrierError (e : CarrierIntegrationError) : CarrierError :=
  { code := e.code.value, message := e.message, details := e.details }

/-- Helper `httpStatusToErrorCode` (defined in `src/errors/index.ts`; note it
is not called by the HTTP client). -/
def httpStatusToErrorCode (status : Nat) : ErrorCode :=
  if status = 400 then .HTTP_400
  else if status = 401 then .HTTP_401
  else if status = 403 then .HTTP_403
  else if status = 404 then .HTTP_404
  else if status = 429 then .HTTP_429
  else if status = 500 then .HTTP_500
  else if status = 502 then .HTTP_502
  else if status = 503 then .HTTP_503
  else .HTTP_UNKNOWN

/-- Helper `isRetryableError`. -/
def isRetryableError (e : CarrierIntegrationError) : Bool :=
  e.code = .TIMEOUT || e.code = .NETWORK_ERROR || e.code = .HTTP_429 ||
    e.code = .HTTP_500 || e.code = .HTTP_502 || e.code = .HTTP_503

/-- Reason of a rejected promise / thrown value, as the code distinguishes it
with `instanceof` checks: a `CarrierIntegrationError`, any other `Error`
(carrying its `message`), or a non-`Error` throwable. -/
inductive JsReason where
  | cie (e : CarrierIntegrationError)
  | err (message : String)
  | nonError
  deriving DecidableEq, Repr

/-! ## Request validation (`src/types/validation.ts`, Zod schemas) -/

/-- The `AddressSchema` Zod object. -/
def validAddress (a : Address) : Bool :=
  1 ≤ a.street1.length && 1 ≤ a.city.length && a.state.length = 2 &&
    1 ≤ a.postalCode.length && a.country.length = 2

/-- The `PackageSchema` Zod object. -/
def validPackage (p : Package) : Bool :=
  0 < p.length && 0 < p.width && 0 < p.height && 0 < p.weight

/-- The `RateRequestSchema` Zod object. -/
def validRateRequest (r : RateRequest) : Bool :=
  validAddress r.origin && validAddress r.destination &&
    1 ≤ r.packages.length && r.packages.all validPackage

/-! ## Orchestrator (`src/service.ts`) -/

/-- Outcome of `Promise.allSettled` for one adapter. -/
inductive Settled where
  | fulfilled (r : RateResponse)
  | rejected (reason : JsReason)
  deriving DecidableEq, Repr

/-- An adapter as the orchestrator sees it: its settled outcome on a request
(the deterministic abstraction of one `carrier.getRates` call). -/
abbrev Adapter := RateRequest → Settled

/-- The aggregation loop body of `CarrierIntegrationService.getRates`:
fulfilled results push their quotes, rejections that are
`CarrierIntegrationError`s push one converted error, other rejections are
only logged. -/
def aggregateStep (acc : List RateQuote × List CarrierError) (s : Settled) :
    List RateQuote × List CarrierError :=
  match s with
  | .fulfilled v => (acc.1 ++ v.quotes, acc.2)
  | .rejected (.cie e) => (acc.1, acc.2 ++ [e.toCarrierError])
  | .rejected (.err _) => acc
  | .rejected .nonError => acc

/-- Aggregation of all settled adapter outcomes, in registration order. -/
def aggregateResults (results : List Settled) : List RateQuote × List CarrierError :=
  results.foldl aggregateStep ([], [])

/-- Diagnostic message the embedding uses for the Zod parse failure text
(the concrete Zod diagnostic string is environment data, not logic). -/
def zodDiagnostic : String := "ZodError diagnostic"

/-- Method `CarrierIntegrationService.getRates`: validate, fan out to every
registered carrier (registration order), aggregate. Throws (models `throw`)
only on validation failure. -/
def getRates (carriers : List (String × Adapter)) (request : RateRequest) :
    Except CarrierIntegrationError RateResponse :=
  if validRateRequest request then
    let results := carriers.map (fun c => c.2 request)
    let aggregated := aggregateResults results
    .ok { quotes := aggregated.1,
          errors := if 0 < aggregated.2.length then some aggregated.2 else none }
  else
    .error { code := .INVALID_REQUEST, message := "Invalid rate request format",
             details := some [("message", some zodDiagnostic)] }

/-! ## HTTP client (`src/http/client.ts`) -/

/-- Raw transport failure as seen by `HttpClient.handleError`: an
`AxiosError` with no response (its `code` may be "ECONNABORTED",
"ECONNREFUSED", or anything else), an `AxiosError` carrying a response with
an HTTP status and optional body, a plain `Error`, or a non-`Error`
throwable. A response whose `status` is 0 models the falsy-status case. -/
inductive RawHttpFailure where
  | noResponse (code : Option String) (message : String)
  | httpStatus (status : Nat) (message : String) (data : Option String)
  | jsError (message : String)
  | nonError
  deriving DecidableEq, Repr

/-- Method `HttpClient.handleError`: classifies a raw transport failure into
a `CarrierIntegrationError`; total, so no native failure ever escapes. -/
def handleError (error : RawHttpFailure) (method url : String) : CarrierIntegrationError :=
  match error with
  | .noResponse code message =>
      if code = some "ECONNABORTED" then
        { code := .TIMEOUT, message := "Request timeout", originalError := some message }
      else if code = some "ECONNREFUSED" then
        { code := .CONNECTION_REFUSED, message := "Connection refused",
          originalError := some message }
      else
        { code := .NETWORK_ERROR, message := message, originalError := some message }
  | .httpStatus status message data =>
      if 400 ≤ status then
        let errorCode : ErrorCode :=
          if status = 400 then .HTTP_400
          else if status = 401 then .HTTP_401
          else if status = 429 then .HTTP_429
          else if 500 ≤ status then .HTTP_500
          else .HTTP_UNKNOWN
        { code := errorCode,
          message := "HTTP " ++ toString status ++ ": " ++ message,
          statusCode := some status,
          details := some [("data", data), ("method", some method), ("url", some url)],
          originalError := some message }
      else
        { code := .NETWORK_ERROR, message := message, originalError := some message }
  | .jsError message =>
      { code := .UNKNOWN, message := message, originalError := some message }
  | .nonError =>
      { code := .UNKNOWN, message := "An unknown error occurred" }

/-- Outcome of one raw HTTP attempt. -/
inductive Attempt (α : Type) where
  | ok (v : α)
  | fail (e : RawHttpFailure)

/-- Loop body of `HttpClient.requestWithRetry` starting at attempt number
`attempt` with `remaining` iterations left (`remaining = maxAttempts -
attempt + 1` at every call). `outcomes n` is the raw result of the `n`-th
attempt. Returns the final result plus the list of backoff delays slept,
in order. The `remaining = 0` fallback mirrors the defensive
`lastError || UNKNOWN` throw after the loop (reachable only when the loop
body never ran). -/
def retryFrom {α : Type} (retryDelayMs : Nat) (method url : String)
    (outcomes : Nat → Attempt α) (attempt : Nat) :
    Nat → Except CarrierIntegrationError α × List Nat
  | 0 => (.error { code := .UNKNOWN, message := "Request failed after retries" }, [])
  | remaining + 1 =>
    match outcomes attempt with
    | .ok v => (.ok v, [])
    | .fail raw =>
      let lastError := handleError raw method url
      if !isRetryableError lastError || remaining = 0 then
        (.error lastError, [])
      else
        let delayMs := retryDelayMs * 2 ^ (attempt - 1)
        let rest := retryFrom retryDelayMs method url outcomes (attempt + 1) remaining
        (rest.1, delayMs :: rest.2)

/-- Method `HttpClient.requestWithRetry`: attempts 1 .. `retryAttempts`. -/
def requestWithRetry {α : Type} (retryDelayMs retryAttempts : Nat) (method url : String)
    (outcomes : Nat → Attempt α) : Except CarrierIntegrationError α × List Nat :=
  retryFrom retryDelayMs method url outcomes 1 retryAttempts

/-- Default `HTTP_RETRY_ATTEMPTS` from `src/config/index.ts`. -/
def defaultRetryAttempts : Nat := 3

/-! ## OAuth2 token manager (`src/auth/oauth2.ts`) -/

/-- Token endpoint payload (`TokenResponse`); an `access_token` of ""
models both a missing and an empty (falsy) field, which the code treats
alike. -/
structure TokenResponse where
  access_token : String
  token_type : String
  expires_in : Int
  deriving DecidableEq, Repr

/-- Cached token entry (`CachedToken`); `expiresAt` in epoch milliseconds. -/
structure CachedToken where
  token : String
  expiresAt : Int
  deriving DecidableEq, Repr

/-- Refresh buffer constant `tokenRefreshBufferSecs`. -/
def tokenRefreshBufferSecs : Int := 30

/-- Base64 alphabet used by `Buffer.toString('base64')`. -/
def base64Alphabet : List Char :=
  "ABCDEFGHIJKLMNOPQRSTUVWXYZabcdefghijklmnopqrstuvwxyz0123456789+/".toList

/-- Character of the base64 alphabet at a 6-bit index. -/
def b64Char (n : Nat) : Char := base64Alphabet.getD n 'A'

/-- Standard base64 encoding of a byte list, with padding. -/
def base64EncodeBytes : List Nat → List Char
  | [] => []
  | [a] => [b64Char (a / 4), b64Char (a % 4 * 16), '=', '=']
  | [a, b] => [b64Char (a / 4), b64Char (a % 4 * 16 + b / 16), b64Char (b % 16 * 4), '=']
  | a :: b :: c :: rest =>
    b64Char (a / 4) :: b64Char (a % 4 * 16 + b / 16) ::
      b64Char (b % 16 * 4 + c / 64) :: b64Char (c % 64) :: base64EncodeBytes rest

/-- The `Buffer.from(s).toString('base64')` operation on a UTF-8 string. -/
def base64 (s : String) : String :=
  String.mk (base64EncodeBytes (s.toUTF8.toList.map (fun b => b.toNat)))

/-- The HTTP request `fetchToken` issues against the token endpoint
(`config.ups.oauth2TokenUrl`, Basic auth, form body). -/
structure TokenHttpRequest where
  url : String
  authHeader : String
  contentType : String
  body : List (String × String)
  deriving DecidableEq, Repr

/-- Request built by `fetchToken` from the credential pair. -/
def buildTokenRequest (clientId clientSecret : String) : TokenHttpRequest :=
  { url := "/security/v1/oauth/token",
    authHeader := "Basic " ++ base64 (clientId ++ ":" ++ clientSecret),
    contentType := "application/x-www-form-urlencoded",
    body := [("grant_type", "client_credentials")] }

/-- Result of one `getToken` call: the returned-or-thrown value, the cache
afterwards, and the token-endpoint calls issued (in order). -/
structure TokenStep where
  result : Except CarrierIntegrationError String
  cache : Option CachedToken
  calls : List TokenHttpRequest
  deriving Repr

/-- Method `OAuth2TokenManager.fetchToken`; `endpointResult` is the settled
outcome of the POST to the token endpoint. -/
def fetchToken (clientId clientSecret : String) (cache : Option CachedToken) (now : Int)
    (endpointResult : Except JsReason TokenResponse) : TokenStep :=
  let call := buildTokenRequest clientId clientSecret
  match endpointResult with
  | .ok response =>
      if response.access_token = "" then
        { result := .error { code := .INVALID_RESPONSE,
                             message := "Token response missing access_token" },
          cache := cache, calls := [call] }
      else
        let expiresAt := now + (response.expires_in - tokenRefreshBufferSecs) * 1000
        { result := .ok response.access_token,
          cache := some { token := response.access_token, expiresAt := expiresAt },
          calls := [call] }
  | .error (.cie e) => { result := .error e, cache := cache, calls := [call] }
  | .error (.err m) =>
      { result := .error { code := .AUTH_FAILED,
                           message := "Failed to acquire OAuth2 token: " ++ m,
                           originalError := some m },
        cache := cache, calls := [call] }
  | .error .nonError =>
      { result := .error { code := .AUTH_FAILED, message := "Failed to acquire OAuth2 token" },
        cache := cache, calls := [call] }

/-- Method `OAuth2TokenManager.getToken`: return the cached token when its
recorded expiry is still strictly in the future, otherwise fetch. -/
def getToken (clientId clientSecret : String) (cache : Option CachedToken) (now : Int)
    (endpointResult : Except JsReason TokenResponse) : TokenStep :=
  match cache with
  | some cached =>
      if now < cached.expiresAt then
        { result := .ok cached.token, cache := some cached, calls := [] }
      else
        fetchToken clientId clientSecret (some cached) now endpointResult
  | none => fetchToken clientId clientSecret none now endpointResult

/-! ## UPS adapter (`src/carriers/ups.ts` and `src/carriers/types.ts`) -/

/-- Top-level status of the UPS wire response (`ResponseStatus`). -/
structure UpsResponseStatus where
  Code : String
  Description : String
  deriving DecidableEq, Repr

/-- Advisory alert entry (`Alert` items). -/
structure UpsAlert where
  Code : String
  Description : String
  deriving DecidableEq, Repr

/-- The `RateResponse.Response` object of the UPS wire response. -/
structure UpsResponseMeta where
  ResponseStatus : UpsResponseStatus
  Alert : Option (List UpsAlert) := none
  deriving DecidableEq, Repr

/-- A monetary field `{ MonetaryValue }`; the `parseFloat` of the wire
string is modelled as the rational it denotes. -/
structure UpsMoney where
  MonetaryValue : ℚ
  deriving DecidableEq, Repr

/-- Negotiated charges of a rated package. The TypeScript interface declares
`TotalCharge` and `BaseCharge` required, but runtime JSON may omit them; the
code reads them unguarded, so a missing one raises a `TypeError` (modelled
by the parser returning an error). `DiscountAmount` is read with `?.` and
is genuinely optional. -/
structure UpsNegotiatedCharges where
  TotalCharge : Option UpsMoney := none
  BaseCharge : Option UpsMoney := none
  DiscountAmount : Option UpsMoney := none
  deriving DecidableEq, Repr

/-- One entry of `RatedPackage`. -/
structure UpsRatedPackage where
  BaseServiceCharge : Option UpsMoney := none
  NegotiatedCharges : Option UpsNegotiatedCharges := none
  deriving DecidableEq, Repr

/-- The `Service` object of a rated shipment. -/
structure UpsService where
  Code : String
  Description : String
  deriving DecidableEq, Repr

/-- Estimated arrival inside `TimeInTransit.ServiceSummary.EstimatedArrival`;
only the `Date` leaf is consumed. -/
structure UpsTimeInTransit where
  Date : String
  deriving DecidableEq, Repr

/-- One entry of `RatedShipment`. -/
structure UpsRatedShipment where
  Service : UpsService
  RatedPackage : List UpsRatedPackage
  TimeInTransit : Option UpsTimeInTransit := none
  deriving DecidableEq, Repr

/-- Body of the UPS wire response. The outer `{ RateResponse: ... }` wrapper
is collapsed (the code projects it immediately); `Response` is `Option`
because the code explicitly guards `!response.Response`. -/
structure UpsRateResponseBody where
  Response : Option UpsResponseMeta := none
  RatedShipment : Option (List UpsRatedShipment) := none
  deriving DecidableEq, Repr

/-- The `UPS_SERVICE_CODE_MAP` lookup table. -/
def UPS_SERVICE_CODE_MAP (code : String) : Option ServiceLevel :=
  if code = "01" then some .OVERNIGHT
  else if code = "02" then some .TWO_DAY
  else if code = "03" then some .GROUND
  else if code = "12" then some .OVERNIGHT
  else if code = "13" then some .EXPRESS
  else if code = "14" then some .EXPRESS
  else none

/-- Per-package accumulation step of `parseRatedShipment`'s loop over
`RatedPackage`: accumulator is (totalBaseCharge, totalDiscountAmount,
finalCharge). Reading a missing required negotiated field raises. -/
def addPackageCharge (acc : ℚ × ℚ × ℚ) (pkg : UpsRatedPackage) : Except String (ℚ × ℚ × ℚ) :=
  match pkg.NegotiatedCharges with
  | some negotiated =>
      match negotiated.BaseCharge, negotiated.TotalCharge with
      | some base, some total =>
          .ok (acc.1 + base.MonetaryValue,
               acc.2.1 + ((negotiated.DiscountAmount.map UpsMoney.MonetaryValue).getD 0),
               acc.2.2 + total.MonetaryValue)
      | _, _ => .error "TypeError: Cannot read properties of undefined"
  | none =>
      match pkg.BaseServiceCharge with
      | some charge => .ok (acc.1 + charge.MonetaryValue, acc.2.1, acc.2.2 + charge.MonetaryValue)
      | none => .ok acc

/-- Method `UpsCarrier.parseRatedShipment`: map the service code (default
GROUND), sum charges over all rated packages, include `discountAmount` only
when the accumulated discount is strictly positive, include
`estimatedDelivery` only when the transit date is present and non-empty
(truthy). -/
def parseRatedShipment (shipment : UpsRatedShipment) : Except String RateQuote := do
  let serviceLevel := (UPS_SERVICE_CODE_MAP shipment.Service.Code).getD .GROUND
  let charges ← shipment.RatedPackage.foldlM addPackageCharge (0, 0, 0)
  .ok { carrier := "ups",
        serviceLevel := serviceLevel,
        baseCharge := charges.1,
        discountAmount := if 0 < charges.2.1 then some charges.2.1 else none,
        finalCharge := charges.2.2,
        currency := .USD,
        estimatedDelivery :=
          match shipment.TimeInTransit with
          | some t => if t.Date = "" then none else some t.Date
          | none => none }

/-- Method `UpsCarrier.parseUpsResponse`: reject a missing `Response` object
or a non-"0" status code with `INVALID_RESPONSE` and no quotes; otherwise
parse every rated shipment, skipping (only) the entries whose parse fails;
a non-empty alert list adds an empty `errors` array to the result. -/
def parseUpsResponse (upsResponse : UpsRateResponseBody) :
    Except CarrierIntegrationError RateResponse :=
  match upsResponse.Response with
  | none =>
      .error { code := .INVALID_RESPONSE, message := "Invalid UPS response structure" }
  | some meta =>
      if meta.ResponseStatus.Code ≠ "0" then
        .error { code := .INVALID_RESPONSE,
                 message := "UPS API error: " ++ meta.ResponseStatus.Description,
                 details := some [("code", some meta.ResponseStatus.Code),
                                  ("description", some meta.ResponseStatus.Description)] }
      else
        let quotes := (upsResponse.RatedShipment.getD []).filterMap
          (fun s => (parseRatedShipment s).toOption)
        let warnings := ((meta.Alert.getD []).map
          (fun a => a.Code ++ ": " ++ a.Description))
        .ok { quotes := quotes,
              errors := if 0 < warnings.length then some [] else none }

/-- Method `BaseCarrier.validateAddress` (`src/carriers/types.ts`):
truthiness of every required field. -/
def baseValidAddress (a : Address) : Bool :=
  !a.street1.isEmpty && !a.city.isEmpty && !a.state.isEmpty &&
    !a.postalCode.isEmpty && !a.country.isEmpty

/-- Truthiness checks of `BaseCarrier.validatePackage`. -/
def baseValidPackage (p : Package) : Bool :=
  0 < p.length && 0 < p.width && 0 < p.height && 0 < p.weight

/-- Method `BaseCarrier.validateRequest`: first failing check throws a plain
`Error` with the corresponding message; `none` means validation passed. -/
def baseValidateRequest (r : RateRequest) : Option String :=
  if !baseValidAddress r.origin then some "Invalid address: missing required fields"
  else if !baseValidAddress r.destination then some "Invalid address: missing required fields"
  else if r.packages.isEmpty then some "At least one package must be provided"
  else if !r.packages.all baseValidPackage then
    some "Invalid package: all dimensions and weight must be positive"
  else none

/-- Try-block of `UpsCarrier.getRates`: local validation, token acquisition,
wire call, parse. `tokenResult` and `httpResult` are the settled outcomes of
the two awaits. -/
def upsTryBody (request : RateRequest) (tokenResult : Except JsReason String)
    (httpResult : Except JsReason UpsRateResponseBody) : Except JsReason RateResponse :=
  match baseValidateRequest request with
  | some msg => .error (.err msg)
  | none =>
    match tokenResult with
    | .error reason => .error reason
    | .ok _token =>
      match httpResult with
      | .error reason => .error reason
      | .ok wire =>
        match parseUpsResponse wire with
        | .ok r => .ok r
        | .error e => .error (.cie e)

/-- Method `UpsCarrier.getRates` with its catch-block wrapping: rethrow
`CarrierIntegrationError`s, wrap other `Error`s as `INVALID_REQUEST`, wrap
non-`Error` throwables as `UNKNOWN`. -/
def upsGetRates (request : RateRequest) (tokenResult : Except JsReason String)
    (httpResult : Except JsReason UpsRateResponseBody) :
    Except CarrierIntegrationError RateResponse :=
  match upsTryBody request tokenResult httpResult with
  | .ok r => .ok r
  | .error (.cie e) => .error e
  | .error (.err m) =>
      .error { code := .INVALID_REQUEST, message := m, originalError := some m }
  | .error .nonError =>
      .error { code := .UNKNOWN, message := "Unknown error during rate request" }

/-- The UPS carrier as an orchestrator-level adapter: a fulfilled promise on
success, a rejection carrying the `CarrierIntegrationError` otherwise. -/
def upsAdapter (tokenResult : Except JsReason String)
    (httpResult : Except JsReason UpsRateResponseBody) : Adapter :=
  fun request =>
    match upsGetRates request tokenResult httpResult with
    | .ok r => .fulfilled r
    | .error e => .rejected (.cie e)

/-- The `Result<T>` union of `src/types/domain.ts`, at `RateResponse`. -/
inductive ResultRateResponse where
  | success (data : RateResponse)
  | failure (error : CarrierError)
  deriving DecidableEq, Repr

/-- Method `CarrierIntegrationService.getRatesFromCarrier`: registry lookup
first, then validation, then the adapter call; every failure is returned as a
tagged `failure`, never thrown. A Zod validation failure is a `ZodError`,
which is not a `CarrierIntegrationError`, so it lands in the generic
`Error` catch branch with code "UNKNOWN". -/
def getRatesFromCarrier (carriers : List (String × Adapter)) (carrierName : String)
    (request : RateRequest) : ResultRateResponse :=
  match carriers.lookup carrierName with
  | none =>
      .failure { code := "CARRIER_NOT_FOUND",
                 message := "Carrier '" ++ carrierName ++ "' is not registered" }
  | some adapter =>
      if validRateRequest request then
        match adapter request with
        | .fulfilled r => .success r
        | .rejected (.cie e) => .failure e.toCarrierError
        | .rejected (.err m) => .failure { code := "UNKNOWN", message := m }
        | .rejected .nonError => .failure { code := "UNKNOWN", message := "Unknown error" }
      else
        .failure { code := "UNKNOWN", message := zodDiagnostic }

/-! ## Shared helper definitions and lemmas -/

/-- Quotes a settled adapter outcome contributes to the aggregate. -/
def settledQuotes : Settled → List RateQuote
  | .fulfilled r => r.quotes
  | .rejected _ => []

/-- The `CarrierError` a settled outcome contributes, if any: exactly the
rejections whose reason is a `CarrierIntegrationError`. -/
def settledCieError : Settled → Option CarrierError
  | .rejected (.cie e) => some e.toCarrierError
  | _ => none

instance instDecidableEqExceptCI {ε α : Type} [DecidableEq ε] [DecidableEq α] :
    DecidableEq (Except ε α) := fun a b =>
  match a, b with
  | .ok x, .ok y =>
      if h : x = y then .isTrue (by rw [h])
      else .isFalse (by intro hc; cases hc; exact h rfl)
  | .error x, .error y =>
      if h : x = y then .isTrue (by rw [h])
      else .isFalse (by intro hc; cases hc; exact h rfl)
  | .ok _, .error _ => .isFalse (by intro hc; cases hc)
  | .error _, .ok _ => .isFalse (by intro hc; cases hc)

theorem foldl_aggregateStep (results : List Settled) (qs : List RateQuote)
    (es : List CarrierError) :
    results.foldl aggregateStep (qs, es) =
      (qs ++ (results.map settledQuotes).flatten, es ++ results.filterMap settledCieError) := by
  induction results generalizing qs es with
  | nil => simp
  | cons s rest ih =>
      cases s with
      | fulfilled r =>
          simp [aggregateStep, settledQuotes, settledCieError, ih]
      | rejected reason =>
          cases reason <;>
            simp [aggregateStep, settledQuotes, settledCieError, ih]

theorem aggregateResults_eq (results : List Settled) :
    aggregateResults results =
      ((results.map settledQuotes).flatten, results.filterMap settledCieError) := by
  simpa using foldl_aggregateStep results [] []

theorem length_filterMap_of_isSome {α β : Type} (g : α → Option β) (l : List α)
    (h : ∀ a ∈ l, (g a).isSome = true) : (l.filterMap g).length = l.length := by
  induction l with
  | nil => simp
  | cons a rest ih =>
      have ha := h a (by simp)
      obtain ⟨b, hb⟩ := Option.isSome_iff_exists.mp ha
      simp [List.filterMap_cons, hb, ih fun x hx => h x (by simp [hx])]

theorem string_length_pos_not_isEmpty (s : String) (h : 1 ≤ s.length) :
    s.isEmpty = false := by
  cases hb : s.isEmpty with
  | false => rfl
  | true =>
      rw [(String.isEmpty_iff s).mp hb] at h
      exact absurd h (by decide)

/-- Zod validity (`RateRequestSchema`) implies that the adapter-local
`BaseCarrier.validateRequest` defense passes. -/
theorem validRateRequest_implies_base (r : RateRequest)
    (h : validRateRequest r = true) : baseValidateRequest r = none := by
  unfold validRateRequest validAddress at h
  simp only [Bool.and_eq_true, decide_eq_true_eq] at h
  obtain ⟨⟨⟨ho, hd⟩, hlen⟩, hall⟩ := h
  unfold baseValidateRequest baseValidAddress
  have hso := string_length_pos_not_isEmpty _ ho.1.1.1.1
  have hco := string_length_pos_not_isEmpty _ ho.1.1.1.2
  have hto := string_length_pos_not_isEmpty _ (by rw [ho.1.1.2]; norm_num)
  have hpo := string_length_pos_not_isEmpty _ ho.1.2
  have hyo := string_length_pos_not_isEmpty _ (by rw [ho.2]; norm_num)
  have hsd := string_length_pos_not_isEmpty _ hd.1.1.1.1
  have hcd := string_length_pos_not_isEmpty _ hd.1.1.1.2
  have htd := string_length_pos_not_isEmpty _ (by rw [hd.1.1.2]; norm_num)
  have hpd := string_length_pos_not_isEmpty _ hd.1.2
  have hyd := string_length_pos_not_isEmpty _ (by rw [hd.2]; norm_num)
  have hne : r.packages.isEmpty = false := by
    cases hp : r.packages with
    | nil => rw [hp] at hlen; simp at hlen
    | cons a rest => rfl
  have hbase : r.packages.all baseValidPackage = true := by
    have : baseValidPackage = validPackage := rfl
    rw [this, hall]
  simp [hso, hco, hto, hpo, hyo, hsd, hcd, htd, hpd, hyd, hne, hbase]

/-- The valid request the integration tests build (`buildValidRateRequest`). -/
def validTestRequest : RateRequest :=
  { origin := { street1 := "123 Main St", city := "New York", state := "NY",
                postalCode := "10001", country := "US" },
    destination := { street1 := "456 Park Ave", city := "Los Angeles", state := "CA",
                     postalCode := "90001", country := "US" },
    packages := [{ length := 10, width := 10, height := 10, weight := 5 }] }

/-- A malformed request: no packages (rejected by `RateRequestSchema`). -/
def emptyPackagesRequest : RateRequest :=
  { origin := { street1 := "123 Main St", city := "New York", state := "NY",
                postalCode := "10001", country := "US" },
    destination := { street1 := "456 Park Ave", city := "Los Angeles", state := "CA",
                     postalCode := "90001", country := "US" },
    packages := [] }

/-! ## Claim C10 -/

/-- C10: for every carrier name that is not registered and every request
(valid or malformed alike), `getRatesFromCarrier` returns a failure result
with code CARRIER_NOT_FOUND — the registry lookup precedes validation, so no
validation outcome is consulted. -/
theorem c10_unregistered_carrier_not_found (carriers : List (String × Adapter))
    (carrierName : String) (request : RateRequest)
    (h : carriers.lookup carrierName = none) :
    getRatesFromCarrier carriers carrierName request =
      .failure { code := "CARRIER_NOT_FOUND",
                 message := "Carrier '" ++ carrierName ++ "' is not registered" } := by
  unfold getRatesFromCarrier
  rw [h]

/-- Witness for C10: an empty registry and a malformed request (no packages)
still produce CARRIER_NOT_FOUND, not a validation failure. -/
theorem c10_witness :
    validRateRequest emptyPackagesRequest = false ∧
    getRatesFromCarrier [] "fedex" emptyPackagesRequest =
      .failure { code := "CARRIER_NOT_FOUND",
                 message := "Carrier '" ++ "fedex" ++ "' is not registered" } :=
  ⟨by decide, c10_unregistered_carrier_not_found [] "fedex" emptyPackagesRequest rfl⟩

/-! ## Claim C7 -/

theorem retryFrom_delay_formula {α : Type} (retryDelayMs : Nat) (method url : String)
    (outcomes : Nat → Attempt α) :
    ∀ remaining attempt, 1 ≤ attempt →
      ∀ i d, (retryFrom retryDelayMs method url outcomes attempt remaining).2.get? i = some d →
        d = retryDelayMs * 2 ^ (attempt - 1 + i) := by
  intro remaining
  induction remaining with
  | zero => intro attempt _ i d h; simp [retryFrom] at h
  | succ rem ih =>
      intro attempt hattempt i d h
      simp only [retryFrom] at h
      cases houtcome : outcomes attempt with
      | ok v => rw [houtcome] at h; simp at h
      | fail raw =>
          rw [houtcome] at h
          dsimp only at h
          by_cases hretry : (!isRetryableError (handleError raw method url) || rem = 0) = true
          · rw [if_pos hretry] at h; simp at h
          · rw [if_neg hretry] at h
            cases i with
            | zero =>
                simp only [List.get?_cons_zero, Option.some.injEq] at h
                simpa using h.symm
            | succ j =>
                simp only [List.get?_cons_succ] at h
                rw [ih (attempt + 1) (by omega) j d h]
                have harith : attempt + 1 - 1 + j = attempt - 1 + (j + 1) := by omega
                rw [harith]

/-- C7: if the `i`-th backoff delay slept by `requestWithRetry` (0-based, so
it precedes retry attempt number `i + 1`, counted from 1) is `d`, then
`d = retryDelayMs * 2 ^ ((i + 1) - 1) = retryDelayMs * 2 ^ i`; no jitter
term exists. -/
theorem c7_exponential_backoff {α : Type} (retryDelayMs retryAttempts : Nat)
    (method url : String) (outcomes : Nat → Attempt α) (i d : Nat)
    (h : (requestWithRetry retryDelayMs retryAttempts method url outcomes).2.get? i = some d) :
    d = retryDelayMs * 2 ^ i := by
  have := retryFrom_delay_formula retryDelayMs method url outcomes retryAttempts 1
    (by omega) i d (by simpa [requestWithRetry] using h)
  simpa using this

/-- Outcome stream that fails every attempt with HTTP 500. -/
def alwaysServerError : Nat → Attempt Unit :=
  fun _ => .fail (.httpStatus 500 "Internal Server Error" none)

/-- Witness for C7: with base delay 100ms and 3 attempts against persistent
HTTP 500, the delay before retry attempt 2 (index 1) is 200 = 100 * 2^1. -/
theorem c7_witness :
    (requestWithRetry 100 3 "POST" "/rating/v2/shop/rates" alwaysServerError).2.get? 1 =
      some 200 ∧ (200 : Nat) = 100 * 2 ^ 1 :=
  ⟨by decide,
   c7_exponential_backoff 100 3 "POST" "/rating/v2/shop/rates" alwaysServerError 1 200
     (by decide)⟩

/-! ## Claim C9 -/

/-- A rated shipment with one package at a 25.00 base service charge. -/
def shipment25 : UpsRatedShipment :=
  { Service := { Code := "03", Description := "UPS Ground" },
    RatedPackage := [{ BaseServiceCharge := some { MonetaryValue := 25 } }] }

/-- The quote `shipment25` normalizes to. -/
def quote25 : RateQuote :=
  { carrier := "ups", serviceLevel := .GROUND, baseCharge := 25,
    finalCharge := 25, currency := .USD }

/-- A successful UPS body carrying one advisory alert and one rated
shipment. -/
def alertBody : UpsRateResponseBody :=
  { Response := some { ResponseStatus := { Code := "0", Description := "Success" },
                       Alert := some [{ Code := "110971",
                                        Description := "Additional handling has been applied" }] },
    RatedShipment := some [shipment25] }

/-- C9 (code bug evidence): on a successful response with an advisory Alert,
the adapter's normalized output contains the alert text nowhere — the quote
carries `warnings := none` and the only trace of the alert is a meaningless
empty `errors` array, so no warnings-equivalent informational content is
surfaced. -/
theorem c9_alerts_not_attached :
    parseUpsResponse alertBody = .ok { quotes := [quote25], errors := some [] } := by
  have hparse : parseRatedShipment shipment25 = .ok quote25 := by
    simp [parseRatedShipment, shipment25, quote25, addPackageCharge,
      UPS_SERVICE_CODE_MAP, Bind.bind, Except.bind, Pure.pure, Except.pure]
  simp [parseUpsResponse, alertBody, hparse, Except.toOption]

/-! ## Claim C5 -/

/-- C5 counterexample: the transport classifier maps HTTP 403 and 404 to the
unknown-HTTP code (not their status-keyed codes) and HTTP 502 to `HTTP_500`
(not its own 5xx-keyed code), although the status-keyed taxonomy (the unused
`httpStatusToErrorCode` helper) has dedicated codes for all three. -/
theorem c5_counterexample :
    (handleError (.httpStatus 403 "Forbidden" none) "POST" "/x").code = .HTTP_UNKNOWN ∧
    (handleError (.httpStatus 404 "Not Found" none) "POST" "/x").code = .HTTP_UNKNOWN ∧
    (handleError (.httpStatus 502 "Bad Gateway" none) "POST" "/x").code = .HTTP_500 ∧
    httpStatusToErrorCode 403 = .HTTP_403 ∧
    httpStatusToErrorCode 404 = .HTTP_404 ∧
    httpStatusToErrorCode 502 = .HTTP_502 ∧
    ErrorCode.HTTP_UNKNOWN ≠ ErrorCode.HTTP_403 ∧
    ErrorCode.HTTP_UNKNOWN ≠ ErrorCode.HTTP_404 ∧
    ErrorCode.HTTP_500 ≠ ErrorCode.HTTP_502 := by
  decide

/-- Modelled from the amended spec: the classification the transport client
actually applies — connection-refused, timeout, generic network error for
response-less failures; 400/401/429 keyed, every 5xx collapsed to
`HTTP_500`, any other ≥ 400 status (403 and 404 included) to
`HTTP_UNKNOWN`; statuses below 400 a generic network error; non-transport
throwables `UNKNOWN`. -/
def specTransportCode (raw : RawHttpFailure) : ErrorCode :=
  match raw with
  | .noResponse code _ =>
      if code = some "ECONNABORTED" then .TIMEOUT
      else if code = some "ECONNREFUSED" then .CONNECTION_REFUSED
      else .NETWORK_ERROR
  | .httpStatus status _ _ =>
      if status < 400 then .NETWORK_ERROR
      else if status = 400 then .HTTP_400
      else if status = 401 then .HTTP_401
      else if status = 429 then .HTTP_429
      else if 500 ≤ status then .HTTP_500
      else .HTTP_UNKNOWN
  | .jsError _ => .UNKNOWN
  | .nonError => .UNKNOWN

/-- C5 (amended): every transport failure is classified, totally, into the
code given by `specTransportCode` (400 → 400-keyed, 401 → 401, 429 → 429,
every 5xx → HTTP_500, every other ≥ 400 status including 403/404 →
unknown-HTTP, response-less failures → timeout/refused/network, non-Axios
throwables → UNKNOWN); for HTTP-status failures the status, response body,
method/url and original message are attached as structured detail. Because
`handleError` is a total function into `CarrierIntegrationError`, no raw
native transport failure propagates. -/
theorem c5_classification_amended (raw : RawHttpFailure) (method url : String) :
    (handleError raw method url).code = specTransportCode raw ∧
    (∀ status message data, raw = .httpStatus status message data → 400 ≤ status →
      (handleError raw method url).statusCode = some status ∧
      (handleError raw method url).details =
        some [("data", data), ("method", some method), ("url", some url)] ∧
      (handleError raw method url).originalError = some message) ∧
    (∀ code message, raw = .noResponse code message →
      (handleError raw method url).originalError = some message) := by
  refine ⟨?_, ?_, ?_⟩
  · cases raw with
    | noResponse code message =>
        by_cases h1 : code = some "ECONNABORTED" <;>
          by_cases h2 : code = some "ECONNREFUSED" <;>
            simp [handleError, specTransportCode, h1, h2]
    | httpStatus status message data =>
        rcases Nat.lt_or_ge status 400 with hlt | hge
        · have : ¬ 400 ≤ status := by omega
          simp [handleError, specTransportCode, hlt, this]
        · have hnl : ¬ status < 400 := by omega
          by_cases h400 : status = 400
          · simp [handleError, specTransportCode, hge, hnl, h400]
          · by_cases h401 : status = 401
            · simp [handleError, specTransportCode, hge, hnl, h400, h401]
            · by_cases h429 : status = 429
              · simp [handleError, specTransportCode, hge, hnl, h400, h401, h429]
              · by_cases h5xx : 500 ≤ status
                · simp [handleError, specTransportCode, hge, hnl, h400, h401, h429, h5xx]
                · simp [handleError, specTransportCode, hge, hnl, h400, h401, h429, h5xx]
    | jsError message => simp [handleError, specTransportCode]
    | nonError => simp [handleError, specTransportCode]
  · rintro status message data rfl hge
    have hnl : ¬ status < 400 := by omega
    refine ⟨?_, ?_, ?_⟩ <;> simp [handleError, hge]
  · rintro code message rfl
    by_cases h1 : code = some "ECONNABORTED" <;>
      by_cases h2 : code = some "ECONNREFUSED" <;>
        simp [handleError, h1, h2]

/-- Witness for C5 (amended): concrete classifications at 403 (unknown-HTTP
code with full detail attachment) and at a response-less timeout. -/
theorem c5_witness :
    ((handleError (.httpStatus 403 "Forbidden" (some "denied")) "POST" "/r").code =
        specTransportCode (.httpStatus 403 "Forbidden" (some "denied")) ∧
      (handleError (.httpStatus 403 "Forbidden" (some "denied")) "POST" "/r").statusCode =
        some 403 ∧
      (handleError (.httpStatus 403 "Forbidden" (some "denied")) "POST" "/r").details =
        some [("data", some "denied"), ("method", some "POST"), ("url", some "/r")]) ∧
    (handleError (.noResponse (some "ECONNABORTED") "timeout of 30000ms exceeded")
        "POST" "/r").code =
      specTransportCode (.noResponse (some "ECONNABORTED") "timeout of 30000ms exceeded") := by
  have h403 := c5_classification_amended (.httpStatus 403 "Forbidden" (some "denied")) "POST" "/r"
  have htime := c5_classification_amended
    (.noResponse (some "ECONNABORTED") "timeout of 30000ms exceeded") "POST" "/r"
  exact ⟨⟨h403.1, (h403.2.1 403 "Forbidden" (some "denied") rfl (by norm_num)).1,
    (h403.2.1 403 "Forbidden" (some "denied") rfl (by norm_num)).2.1⟩, htime.1⟩

/-! ## Claim C4 -/

/-- C4: (i) a classified transport failure is retryable exactly when its
code is TIMEOUT, NETWORK_ERROR, HTTP_429, or it came from an HTTP 5xx
status; (ii) any other classified failure — HTTP 400 included — is raised
immediately, with no retry and no backoff sleep, whatever the attempt
budget; (iii) with the default budget of 3 attempts, an HTTP 429 on the
first attempt followed by a success on the second yields the successful
result, with no caller-visible error. -/
theorem c4_retry_policy :
    (∀ raw method url,
      isRetryableError (handleError raw method url) = true ↔
        ((handleError raw method url).code = .TIMEOUT ∨
         (handleError raw method url).code = .NETWORK_ERROR ∨
         (handleError raw method url).code = .HTTP_429 ∨
         ∃ status message data, raw = .httpStatus status message data ∧ 500 ≤ status)) ∧
    (∀ {α : Type} (retryDelayMs retryAttempts : Nat) (method url : String)
        (outcomes : Nat → Attempt α) (raw : RawHttpFailure),
      1 ≤ retryAttempts → outcomes 1 = .fail raw →
      isRetryableError (handleError raw method url) = false →
      requestWithRetry retryDelayMs retryAttempts method url outcomes =
        (.error (handleError raw method url), [])) ∧
    (∀ {α : Type} (retryDelayMs : Nat) (method url : String)
        (outcomes : Nat → Attempt α) (message : String) (data : Option String) (v : α),
      outcomes 1 = .fail (.httpStatus 429 message data) → outcomes 2 = .ok v →
      (requestWithRetry retryDelayMs defaultRetryAttempts method url outcomes).1 = .ok v) := by
  refine ⟨?_, ?_, ?_⟩
  · intro raw method url
    cases raw with
    | noResponse code message =>
        by_cases h1 : code = some "ECONNABORTED" <;>
          by_cases h2 : code = some "ECONNREFUSED" <;>
            simp [handleError, isRetryableError, h1, h2]
    | httpStatus status message data =>
        rcases Nat.lt_or_ge status 400 with hlt | hge
        · have hn : ¬ 400 ≤ status := by omega
          simp [handleError, isRetryableError, hn]
        · by_cases h400 : status = 400
          · simp [handleError, isRetryableError, hge, h400]
          · by_cases h401 : status = 401
            · simp [handleError, isRetryableError, hge, h400, h401]
            · by_cases h429 : status = 429
              · simp [handleError, isRetryableError, hge, h400, h401, h429]
              · by_cases h5xx : 500 ≤ status
                · simp [handleError, isRetryableError, hge, h400, h401, h429, h5xx]
                · simp [handleError, isRetryableError, hge, h400, h401, h429, h5xx]
    | jsError message => simp [handleError, isRetryableError]
    | nonError => simp [handleError, isRetryableError]
  · intro α retryDelayMs retryAttempts method url outcomes raw h1 hout hnr
    cases retryAttempts with
    | zero => omega
    | succ n => simp [requestWithRetry, retryFrom, hout, hnr]
  · intro α retryDelayMs method url outcomes message data v hout1 hout2
    have h429 : isRetryableError (handleError (.httpStatus 429 message data) method url) = true := by
      norm_num [handleError, isRetryableError]
    simp [requestWithRetry, defaultRetryAttempts, retryFrom, hout1, hout2, h429]

/-- Outcome stream failing every attempt with HTTP 400. -/
def always400 : Nat → Attempt Unit :=
  fun _ => .fail (.httpStatus 400 "Bad Request" none)

/-- Outcome stream: HTTP 429 on the first attempt, success afterwards. -/
def rateLimitedThenOk : Nat → Attempt Unit :=
  fun n => if n = 1 then .fail (.httpStatus 429 "Too Many Requests" none) else .ok ()

/-- Witness for C4: HTTP 503 is retryable; a persistent HTTP 400 with a
3-attempt budget fails immediately with no backoff sleeps; a 429-then-200
stream yields a success. -/
theorem c4_witness :
    isRetryableError (handleError (.httpStatus 503 "Service Unavailable" none) "POST" "/r")
        = true ∧
    requestWithRetry 1000 3 "POST" "/r" always400 =
      (.error (handleError (.httpStatus 400 "Bad Request" none) "POST" "/r"), []) ∧
    (requestWithRetry 1000 defaultRetryAttempts "POST" "/r" rateLimitedThenOk).1 = .ok () :=
  ⟨(c4_retry_policy.1 (.httpStatus 503 "Service Unavailable" none) "POST" "/r").mpr
      (.inr (.inr (.inr ⟨503, "Service Unavailable", none, rfl, by norm_num⟩))),
   c4_retry_policy.2.1 1000 3 "POST" "/r" always400 (.httpStatus 400 "Bad Request" none)
     (by norm_num) rfl (by decide),
   c4_retry_policy.2.2 1000 "POST" "/r" rateLimitedThenOk "Too Many Requests" none ()
     rfl rfl⟩

/-! ## Claim C1 -/

/-- C1 counterexample: a single registered adapter whose promise rejects
with a plain `Error` (not a `CarrierIntegrationError`) is dropped by the
aggregation loop, so the returned response has NO `errors` field although an
adapter failed — refuting "errors present and non-empty iff at least one
adapter failed". -/
theorem c1_counterexample :
    getRates [("broken", fun _ => .rejected (.err "socket hang up"))] validTestRequest =
      .ok { quotes := [], errors := none } := by
  decide

/-- C1 (amended): for a validated request `getRates` always resolves; quotes
are the in-order concatenation of the fulfilled adapters' quotes; each
adapter that fails WITH a `CarrierIntegrationError` contributes exactly one
converted `CarrierError` (in order), while rejections of any other kind
contribute nothing; the `errors` field is present and non-empty iff at least
one adapter failed with a `CarrierIntegrationError`. -/
theorem c1_aggregation_amended (carriers : List (String × Adapter)) (request : RateRequest)
    (hval : validRateRequest request = true) :
    ∃ r, getRates carriers request = .ok r ∧
      r.quotes = ((carriers.map (fun c => c.2 request)).map settledQuotes).flatten ∧
      r.errors = (if 0 < ((carriers.map (fun c => c.2 request)).filterMap settledCieError).length
                  then some ((carriers.map (fun c => c.2 request)).filterMap settledCieError)
                  else none) ∧
      ((∃ es, r.errors = some es ∧ es ≠ []) ↔
        ∃ c ∈ carriers, (settledCieError (c.2 request)).isSome = true) := by
  have hres : getRates carriers request = .ok
      { quotes := ((carriers.map (fun c => c.2 request)).map settledQuotes).flatten,
        errors := if 0 < ((carriers.map (fun c => c.2 request)).filterMap settledCieError).length
                  then some ((carriers.map (fun c => c.2 request)).filterMap settledCieError)
                  else none } := by
    unfold getRates
    rw [if_pos hval]
    simp [aggregateResults_eq]
  refine ⟨_, hres, rfl, rfl, ?_⟩
  constructor
  · rintro ⟨es, hes, hne⟩
    dsimp only at hes
    by_cases hpos :
        0 < ((carriers.map (fun c => c.2 request)).filterMap settledCieError).length
    · obtain ⟨a, ha⟩ := List.exists_mem_of_length_pos hpos
      obtain ⟨s, hs, hfa⟩ := List.mem_filterMap.mp ha
      obtain ⟨c, hc, hcs⟩ := List.mem_map.mp hs
      refine ⟨c, hc, ?_⟩
      have hbeta : c.2 request = s := hcs
      rw [hbeta, hfa]
      rfl
    · rw [if_neg hpos] at hes
      exact absurd hes (by simp)
  · rintro ⟨c, hc, hsome⟩
    obtain ⟨e, he⟩ := Option.isSome_iff_exists.mp hsome
    have hmem : e ∈ (carriers.map (fun c => c.2 request)).filterMap settledCieError :=
      List.mem_filterMap.mpr ⟨c.2 request, List.mem_map.mpr ⟨c, hc, rfl⟩, he⟩
    have hpos : 0 < ((carriers.map (fun c => c.2 request)).filterMap settledCieError).length :=
      List.length_pos.mpr (List.ne_nil_of_mem hmem)
    exact ⟨_, by dsimp only; rw [if_pos hpos], List.ne_nil_of_mem hmem⟩

/-- A fulfilled response with one concrete quote. -/
def goodResponse : RateResponse := { quotes := [quote25] }

/-- A timeout failure an adapter rejects with. -/
def timeoutCie : CarrierIntegrationError := { code := .TIMEOUT, message := "Request timeout" }

/-- Witness for C1 (amended): one succeeding and one CIE-failing adapter. -/
theorem c1_witness :
    ∃ r, getRates [("ups", fun _ => .fulfilled goodResponse),
                   ("slow", fun _ => .rejected (.cie timeoutCie))] validTestRequest = .ok r ∧
      r.quotes = (([("ups", fun _ => .fulfilled goodResponse),
                    ("slow", fun _ => .rejected (.cie timeoutCie))].map
          (fun c => c.2 validTestRequest)).map settledQuotes).flatten ∧
      r.errors = (if 0 < (([("ups", fun _ => .fulfilled goodResponse),
                           ("slow", fun _ => .rejected (.cie timeoutCie))].map
              (fun c => c.2 validTestRequest)).filterMap settledCieError).length
                  then some (([("ups", fun _ => .fulfilled goodResponse),
                               ("slow", fun _ => .rejected (.cie timeoutCie))].map
              (fun c => c.2 validTestRequest)).filterMap settledCieError)
                  else none) ∧
      ((∃ es, r.errors = some es ∧ es ≠ []) ↔
        ∃ c ∈ [("ups", fun _ => .fulfilled goodResponse),
               ("slow", fun _ => .rejected (.cie timeoutCie))],
          (settledCieError (c.2 validTestRequest)).isSome = true) :=
  c1_aggregation_amended _ validTestRequest (by decide)

/-! ## Claim C2 -/

theorem upsGetRates_of_parse_error (request : RateRequest) (token : String)
    (body : UpsRateResponseBody) (e : CarrierIntegrationError)
    (hbase : baseValidateRequest request = none)
    (hparse : parseUpsResponse body = .error e) :
    upsGetRates request (.ok token) (.ok body) = .error e := by
  simp [upsGetRates, upsTryBody, hbase, hparse]

theorem ups_error_through_orchestrator (request : RateRequest) (token : String)
    (body : UpsRateResponseBody) (e : CarrierIntegrationError)
    (hval : validRateRequest request = true)
    (hups : upsGetRates request (.ok token) (.ok body) = .error e) :
    getRates [("ups", upsAdapter (.ok token) (.ok body))] request =
      .ok { quotes := [], errors := some [e.toCarrierError] } := by
  unfold getRates
  rw [if_pos hval]
  simp [upsAdapter, hups, aggregateResults, aggregateStep]

/-- C2: for a UPS wire body whose top-level status object is missing, or
whose `ResponseStatus.Code` is not "0", the adapter raises
`INVALID_RESPONSE` (carrying the carrier's own status code/description when
the status object is present) and produces no quotes; through the
orchestrator this surfaces as a resolved response with zero quotes and one
`CarrierError` of that response-parsing kind, never as a raised fault. -/
theorem c2_invalid_status_rejected (body : UpsRateResponseBody) (request : RateRequest)
    (token : String) (hval : validRateRequest request = true)
    (hbad : body.Response = none ∨
      ∃ meta, body.Response = some meta ∧ meta.ResponseStatus.Code ≠ "0") :
    ∃ e, upsGetRates request (.ok token) (.ok body) = .error e ∧
      e.code = .INVALID_RESPONSE ∧
      (∀ meta, body.Response = some meta →
        e.details = some [("code", some meta.ResponseStatus.Code),
                          ("description", some meta.ResponseStatus.Description)]) ∧
      getRates [("ups", upsAdapter (.ok token) (.ok body))] request =
        .ok { quotes := [], errors := some [e.toCarrierError] } := by
  have hbase := validRateRequest_implies_base request hval
  rcases hbad with hnone | ⟨meta, hsome, hcode⟩
  · have hparse : parseUpsResponse body =
        .error { code := .INVALID_RESPONSE, message := "Invalid UPS response structure" } := by
      unfold parseUpsResponse
      rw [hnone]
    have hups := upsGetRates_of_parse_error request token body _ hbase hparse
    exact ⟨_, hups, rfl,
      fun m hm => absurd (hnone ▸ hm) (by simp),
      ups_error_through_orchestrator request token body _ hval hups⟩
  · have hparse : parseUpsResponse body =
        .error { code := .INVALID_RESPONSE,
                 message := "UPS API error: " ++ meta.ResponseStatus.Description,
                 details := some [("code", some meta.ResponseStatus.Code),
                                  ("description", some meta.ResponseStatus.Description)] } := by
      unfold parseUpsResponse
      rw [hsome]
      dsimp only
      rw [if_pos hcode]
    have hups := upsGetRates_of_parse_error request token body _ hbase hparse
    refine ⟨_, hups, rfl, ?_, ups_error_through_orchestrator request token body _ hval hups⟩
    intro m hm
    have : m = meta := by rw [hsome] at hm; exact (Option.some.injEq _ _ ▸ hm).symm
    rw [this]

/-- A UPS body whose carrier-level status signals failure. -/
def failedStatusBody : UpsRateResponseBody :=
  { Response := some { ResponseStatus := { Code := "1", Description := "Invalid request" } } }

/-- Witness for C2: the carrier-rejected body surfaces as one
INVALID_RESPONSE `CarrierError` with the carrier's code/description. -/
theorem c2_witness :
    ∃ e, upsGetRates validTestRequest (.ok "tok") (.ok failedStatusBody) = .error e ∧
      e.code = .INVALID_RESPONSE ∧
      (∀ meta, failedStatusBody.Response = some meta →
        e.details = some [("code", some meta.ResponseStatus.Code),
                          ("description", some meta.ResponseStatus.Description)]) ∧
      getRates [("ups", upsAdapter (.ok "tok") (.ok failedStatusBody))] validTestRequest =
        .ok { quotes := [], errors := some [e.toCarrierError] } :=
  c2_invalid_status_rejected failedStatusBody validTestRequest "tok" (by decide)
    (Or.inr ⟨_, rfl, by decide⟩)

/-! ## Claim C3 -/

/-- C3: (i) when a cached token's recorded expiry (already buffered at
caching time) is still strictly in the future, it is returned with no
token-endpoint call; (ii) the token request carries Basic auth built from
base64 of `clientId:clientSecret` and the body `grant_type=client_credentials`;
(iii)/(iv) with no cached token, or an expired one, exactly one exchange is
performed and cached with `expiresAt = now + (expires_in - 30) * 1000` ms;
(v) two sequential acquisitions whose first response grants a far-future
expiry trigger exactly one token-endpoint call in total, and the second
returns the same token. -/
theorem c3_token_cache_behaviour (clientId clientSecret : String) :
    (∀ (cached : CachedToken) (now : Int) (endpointResult : Except JsReason TokenResponse),
      now < cached.expiresAt →
      getToken clientId clientSecret (some cached) now endpointResult =
        { result := .ok cached.token, cache := some cached, calls := [] }) ∧
    (buildTokenRequest clientId clientSecret).authHeader =
      "Basic " ++ base64 (clientId ++ ":" ++ clientSecret) ∧
    (buildTokenRequest clientId clientSecret).body = [("grant_type", "client_credentials")] ∧
    (∀ (now : Int) (resp : TokenResponse), resp.access_token ≠ "" →
      getToken clientId clientSecret none now (.ok resp) =
        { result := .ok resp.access_token,
          cache := some { token := resp.access_token,
                          expiresAt := now + (resp.expires_in - tokenRefreshBufferSecs) * 1000 },
          calls := [buildTokenRequest clientId clientSecret] }) ∧
    (∀ (cached : CachedToken) (now : Int) (resp : TokenResponse),
      cached.expiresAt ≤ now → resp.access_token ≠ "" →
      getToken clientId clientSecret (some cached) now (.ok resp) =
        { result := .ok resp.access_token,
          cache := some { token := resp.access_token,
                          expiresAt := now + (resp.expires_in - tokenRefreshBufferSecs) * 1000 },
          calls := [buildTokenRequest clientId clientSecret] }) ∧
    (∀ (t1 t2 : Int) (resp : TokenResponse) (later : Except JsReason TokenResponse),
      resp.access_token ≠ "" →
      t2 < t1 + (resp.expires_in - tokenRefreshBufferSecs) * 1000 →
      (getToken clientId clientSecret none t1 (.ok resp)).calls.length +
        (getToken clientId clientSecret
          (getToken clientId clientSecret none t1 (.ok resp)).cache t2 later).calls.length = 1 ∧
      (getToken clientId clientSecret
          (getToken clientId clientSecret none t1 (.ok resp)).cache t2 later).result =
        .ok resp.access_token) := by
  have hfresh : ∀ (now : Int) (resp : TokenResponse), resp.access_token ≠ "" →
      getToken clientId clientSecret none now (.ok resp) =
        { result := .ok resp.access_token,
          cache := some { token := resp.access_token,
                          expiresAt := now + (resp.expires_in - tokenRefreshBufferSecs) * 1000 },
          calls := [buildTokenRequest clientId clientSecret] } := by
    intro now resp hne
    simp [getToken, fetchToken, hne]
  refine ⟨?_, rfl, rfl, hfresh, ?_, ?_⟩
  · intro cached now endpointResult hlt
    simp [getToken, hlt]
  · intro cached now resp hexp hne
    simp [getToken, fetchToken, not_lt.mpr hexp, hne]
  · intro t1 t2 resp later hne hfuture
    rw [hfresh t1 resp hne]
    have hcached : getToken clientId clientSecret
        (some { token := resp.access_token,
                expiresAt := t1 + (resp.expires_in - tokenRefreshBufferSecs) * 1000 }) t2 later =
        { result := .ok resp.access_token,
          cache := some { token := resp.access_token,
                          expiresAt := t1 + (resp.expires_in - tokenRefreshBufferSecs) * 1000 },
          calls := [] } := by
      simp [getToken, hfuture]
    rw [hcached]
    exact ⟨rfl, rfl⟩

/-- Witness for C3: a far-future cached token is returned with zero calls,
and a fresh fetch at t=0 granting 3600s is reused at t=1000ms, for one call
in total across the two acquisitions. -/
theorem c3_witness :
    getToken "test_client_id" "test_client_secret"
        (some { token := "cached_token", expiresAt := 1000000 }) 5000 (.error .nonError) =
      { result := .ok "cached_token",
        cache := some { token := "cached_token", expiresAt := 1000000 }, calls := [] } ∧
    ((getToken "test_client_id" "test_client_secret" none 0
        (.ok { access_token := "token_1", token_type := "Bearer", expires_in := 3600 })).calls.length +
      (getToken "test_client_id" "test_client_secret"
        (getToken "test_client_id" "test_client_secret" none 0
          (.ok { access_token := "token_1", token_type := "Bearer", expires_in := 3600 })).cache
        1000 (.error .nonError)).calls.length = 1 ∧
      (getToken "test_client_id" "test_client_secret"
        (getToken "test_client_id" "test_client_secret" none 0
          (.ok { access_token := "token_1", token_type := "Bearer", expires_in := 3600 })).cache
        1000 (.error .nonError)).result = .ok "token_1") :=
  ⟨(c3_token_cache_behaviour "test_client_id" "test_client_secret").1
      { token := "cached_token", expiresAt := 1000000 } 5000 (.error .nonError) (by decide),
   (c3_token_cache_behaviour "test_client_id" "test_client_secret").2.2.2.2.2
      0 1000 { access_token := "token_1", token_type := "Bearer", expires_in := 3600 }
      (.error .nonError) (by decide) (by decide)⟩

/-! ## Claim C6 -/

/-- Sum of the plain base service charges over rated packages (absent
charges contribute 0, as the code skips such packages). -/
def baseOnlySum (pkgs : List UpsRatedPackage) : ℚ :=
  (pkgs.map (fun p => ((p.BaseServiceCharge.map UpsMoney.MonetaryValue).getD 0))).sum

/-- Sum of reported negotiated base charges. -/
def negotiatedBaseSum (pkgs : List UpsRatedPackage) : ℚ :=
  (pkgs.map (fun p =>
    (((p.NegotiatedCharges.bind UpsNegotiatedCharges.BaseCharge).map
        UpsMoney.MonetaryValue).getD 0))).sum

/-- Sum of reported negotiated discount amounts (absent entries count 0). -/
def negotiatedDiscountSum (pkgs : List UpsRatedPackage) : ℚ :=
  (pkgs.map (fun p =>
    (((p.NegotiatedCharges.bind UpsNegotiatedCharges.DiscountAmount).map
        UpsMoney.MonetaryValue).getD 0))).sum

/-- Sum of reported negotiated total charges. -/
def negotiatedTotalSum (pkgs : List UpsRatedPackage) : ℚ :=
  (pkgs.map (fun p =>
    (((p.NegotiatedCharges.bind UpsNegotiatedCharges.TotalCharge).map
        UpsMoney.MonetaryValue).getD 0))).sum

theorem foldlM_baseOnly (pkgs : List UpsRatedPackage)
    (h : ∀ p ∈ pkgs, p.NegotiatedCharges = none) :
    ∀ a b c : ℚ, pkgs.foldlM addPackageCharge (a, b, c) =
      .ok (a + baseOnlySum pkgs, b, c + baseOnlySum pkgs) := by
  induction pkgs with
  | nil => intro a b c; simp [baseOnlySum, Pure.pure, Except.pure]
  | cons p rest ih =>
      intro a b c
      have hp := h p (by simp)
      have hrest := ih fun x hx => h x (by simp [hx])
      cases hb : p.BaseServiceCharge with
      | some charge =>
          simp [List.foldlM_cons, addPackageCharge, hp, hb, Bind.bind, Except.bind,
            hrest, baseOnlySum]
          exact ⟨by ring, by ring⟩
      | none =>
          simp [List.foldlM_cons, addPackageCharge, hp, hb, Bind.bind, Except.bind,
            hrest, baseOnlySum]

theorem foldlM_negotiated (pkgs : List UpsRatedPackage)
    (h : ∀ p ∈ pkgs, ∃ nc, p.NegotiatedCharges = some nc ∧
      nc.BaseCharge.isSome = true ∧ nc.TotalCharge.isSome = true) :
    ∀ a b c : ℚ, pkgs.foldlM addPackageCharge (a, b, c) =
      .ok (a + negotiatedBaseSum pkgs, b + negotiatedDiscountSum pkgs,
           c + negotiatedTotalSum pkgs) := by
  induction pkgs with
  | nil =>
      intro a b c
      simp [negotiatedBaseSum, negotiatedDiscountSum, negotiatedTotalSum, Pure.pure, Except.pure]
  | cons p rest ih =>
      intro a b c
      obtain ⟨nc, hnc, hbs, hts⟩ := h p (by simp)
      obtain ⟨bc, hbc⟩ := Option.isSome_iff_exists.mp hbs
      obtain ⟨tc, htc⟩ := Option.isSome_iff_exists.mp hts
      have hrest := ih fun x hx => h x (by simp [hx])
      simp [List.foldlM_cons, addPackageCharge, hnc, hbc, htc, Bind.bind, Except.bind,
        hrest, negotiatedBaseSum, negotiatedDiscountSum, negotiatedTotalSum]
      refine ⟨by ring, by ring, by ring⟩

/-- C6: when every rated package of a service entry carries only plain base
service charges, the quote's `baseCharge` and `finalCharge` are both the sum
of those charges and `discountAmount` is absent; when every package carries
negotiated charges, the quote takes the reported sums directly —
`baseCharge` the summed negotiated bases, `discountAmount` the summed
discounts (present only when strictly positive), and `finalCharge` the sum
of the reported totals (not `baseCharge - discountAmount`). -/
theorem c6_charge_summation :
    (∀ shipment : UpsRatedShipment,
      (∀ p ∈ shipment.RatedPackage, p.NegotiatedCharges = none) →
      ∃ q, parseRatedShipment shipment = .ok q ∧
        q.baseCharge = baseOnlySum shipment.RatedPackage ∧
        q.finalCharge = baseOnlySum shipment.RatedPackage ∧
        q.discountAmount = none) ∧
    (∀ shipment : UpsRatedShipment,
      (∀ p ∈ shipment.RatedPackage, ∃ nc, p.NegotiatedCharges = some nc ∧
        nc.BaseCharge.isSome = true ∧ nc.TotalCharge.isSome = true) →
      ∃ q, parseRatedShipment shipment = .ok q ∧
        q.baseCharge = negotiatedBaseSum shipment.RatedPackage ∧
        q.discountAmount = (if 0 < negotiatedDiscountSum shipment.RatedPackage
                            then some (negotiatedDiscountSum shipment.RatedPackage)
                            else none) ∧
        q.finalCharge = negotiatedTotalSum shipment.RatedPackage) := by
  constructor
  · intro shipment h
    have hfold := foldlM_baseOnly shipment.RatedPackage h 0 0 0
    have hparse : parseRatedShipment shipment = .ok
        { carrier := "ups",
          serviceLevel := (UPS_SERVICE_CODE_MAP shipment.Service.Code).getD .GROUND,
          baseCharge := baseOnlySum shipment.RatedPackage,
          discountAmount := none,
          finalCharge := baseOnlySum shipment.RatedPackage,
          currency := .USD,
          estimatedDelivery :=
            match shipment.TimeInTransit with
            | some t => if t.Date = "" then none else some t.Date
            | none => none } := by
      unfold parseRatedShipment
      rw [hfold]
      simp [Bind.bind, Except.bind]
    exact ⟨_, hparse, rfl, rfl, rfl⟩
  · intro shipment h
    have hfold := foldlM_negotiated shipment.RatedPackage h 0 0 0
    have hparse : parseRatedShipment shipment = .ok
        { carrier := "ups",
          serviceLevel := (UPS_SERVICE_CODE_MAP shipment.Service.Code).getD .GROUND,
          baseCharge := negotiatedBaseSum shipment.RatedPackage,
          discountAmount := if 0 < negotiatedDiscountSum shipment.RatedPackage
                            then some (negotiatedDiscountSum shipment.RatedPackage)
                            else none,
          finalCharge := negotiatedTotalSum shipment.RatedPackage,
          currency := .USD,
          estimatedDelivery :=
            match shipment.TimeInTransit with
            | some t => if t.Date = "" then none else some t.Date
            | none => none } := by
      unfold parseRatedShipment
      rw [hfold]
      simp [Bind.bind, Except.bind]
    exact ⟨_, hparse, rfl, rfl, rfl⟩

/-- Two packages carrying only base service charges 15 and 10. -/
def baseOnlyShipment : UpsRatedShipment :=
  { Service := { Code := "03", Description := "UPS Ground" },
    RatedPackage := [{ BaseServiceCharge := some { MonetaryValue := 15 } },
                     { BaseServiceCharge := some { MonetaryValue := 10 } }] }

/-- Negotiated charges: base 30, discount 5, total 25. -/
def negotiatedCharges30 : UpsNegotiatedCharges :=
  { TotalCharge := some { MonetaryValue := 25 },
    BaseCharge := some { MonetaryValue := 30 },
    DiscountAmount := some { MonetaryValue := 5 } }

/-- One package carrying negotiated charges base 30, discount 5, total 25. -/
def negotiatedShipment : UpsRatedShipment :=
  { Service := { Code := "03", Description := "UPS Ground" },
    RatedPackage := [{ NegotiatedCharges := some negotiatedCharges30 }] }

/-- Witness for C6 at the spec's example figures: 15 + 10 gives final 25
with no discount; negotiated 30/5/25 gives base 30, discount 5, final 25. -/
theorem c6_witness :
    (∃ q, parseRatedShipment baseOnlyShipment = .ok q ∧
      q.baseCharge = baseOnlySum baseOnlyShipment.RatedPackage ∧
      q.finalCharge = baseOnlySum baseOnlyShipment.RatedPackage ∧
      q.discountAmount = none) ∧
    (∃ q, parseRatedShipment negotiatedShipment = .ok q ∧
      q.baseCharge = negotiatedBaseSum negotiatedShipment.RatedPackage ∧
      q.discountAmount = (if 0 < negotiatedDiscountSum negotiatedShipment.RatedPackage
                          then some (negotiatedDiscountSum negotiatedShipment.RatedPackage)
                          else none) ∧
      q.finalCharge = negotiatedTotalSum negotiatedShipment.RatedPackage) ∧
    baseOnlySum baseOnlyShipment.RatedPackage = 25 ∧
    negotiatedBaseSum negotiatedShipment.RatedPackage = 30 ∧
    (if 0 < negotiatedDiscountSum negotiatedShipment.RatedPackage
     then some (negotiatedDiscountSum negotiatedShipment.RatedPackage)
     else none) = some 5 ∧
    negotiatedTotalSum negotiatedShipment.RatedPackage = 25 :=
  ⟨c6_charge_summation.1 baseOnlyShipment (by decide),
   c6_charge_summation.2 negotiatedShipment
     (by intro p hp
         simp only [negotiatedShipment, List.mem_singleton] at hp
         subst hp
         exact ⟨negotiatedCharges30, rfl, rfl, rfl⟩),
   by norm_num [baseOnlySum, baseOnlyShipment],
   by norm_num [negotiatedBaseSum, negotiatedShipment, negotiatedCharges30],
   by norm_num [negotiatedDiscountSum, negotiatedShipment, negotiatedCharges30],
   by norm_num [negotiatedTotalSum, negotiatedShipment, negotiatedCharges30]⟩

/-! ## Claim C8 -/

/-- C8: in a successful-status response, a parse failure on one rated
service entry only removes that entry — every other entry still contributes
its quote, in order; and a service code absent from the fixed lookup table
normalizes to GROUND. -/
theorem c8_parse_isolation :
    (∀ (meta : UpsResponseMeta) (pre post : List UpsRatedShipment) (bad : UpsRatedShipment),
      meta.ResponseStatus.Code = "0" →
      (parseRatedShipment bad).toOption = none →
      (∀ s ∈ pre, ((parseRatedShipment s).toOption).isSome = true) →
      (∀ s ∈ post, ((parseRatedShipment s).toOption).isSome = true) →
      ∃ r, parseUpsResponse { Response := some meta,
                              RatedShipment := some (pre ++ bad :: post) } = .ok r ∧
        r.quotes = (pre ++ post).filterMap (fun s => (parseRatedShipment s).toOption) ∧
        r.quotes.length = pre.length + post.length) ∧
    (∀ (s : UpsRatedShipment) (q : RateQuote), UPS_SERVICE_CODE_MAP s.Service.Code = none →
      parseRatedShipment s = .ok q → q.serviceLevel = .GROUND) := by
  constructor
  · intro meta pre post bad hcode hbad hpre hpost
    have hnotne : ¬ meta.ResponseStatus.Code ≠ "0" := by simp [hcode]
    have hr : parseUpsResponse
        { Response := some meta, RatedShipment := some (pre ++ bad :: post) } =
        .ok { quotes := (pre ++ bad :: post).filterMap
                          (fun s => (parseRatedShipment s).toOption),
              errors := if 0 < ((meta.Alert.getD []).map
                          (fun a => a.Code ++ ": " ++ a.Description)).length
                        then some [] else none } := by
      unfold parseUpsResponse
      dsimp only
      rw [if_neg hnotne]
      simp only [Option.getD_some]
    refine ⟨_, hr, ?_, ?_⟩
    · dsimp only
      rw [List.filterMap_append,
        @List.filterMap_cons_none _ _ (fun s => (parseRatedShipment s).toOption) bad post hbad,
        List.filterMap_append]
    · dsimp only
      rw [List.filterMap_append,
        @List.filterMap_cons_none _ _ (fun s => (parseRatedShipment s).toOption) bad post hbad,
        List.length_append,
        length_filterMap_of_isSome _ pre hpre, length_filterMap_of_isSome _ post hpost]
  · intro s q hmap hq
    unfold parseRatedShipment at hq
    rw [hmap] at hq
    cases hfold : s.RatedPackage.foldlM addPackageCharge (0, 0, 0) with
    | error e => rw [hfold] at hq; simp [Bind.bind, Except.bind] at hq
    | ok charges =>
        rw [hfold] at hq
        simp only [Bind.bind, Except.bind, Except.ok.injEq] at hq
        rw [← hq]
        rfl

/-- A 45.00 Next Day Air entry (mapped code "01"). -/
def shipment45 : UpsRatedShipment :=
  { Service := { Code := "01", Description := "UPS Next Day Air" },
    RatedPackage := [{ BaseServiceCharge := some { MonetaryValue := 45 } }] }

/-- Negotiated charges missing their required `TotalCharge` at runtime. -/
def malformedCharges : UpsNegotiatedCharges :=
  { BaseCharge := some { MonetaryValue := 1 }, TotalCharge := none }

/-- A malformed entry: negotiated charges whose required `TotalCharge` is
missing at runtime, so reading it raises and the entry fails to parse. -/
def malformedShipment : UpsRatedShipment :=
  { Service := { Code := "02", Description := "UPS Second Day Air" },
    RatedPackage := [{ NegotiatedCharges := some malformedCharges }] }

/-- An entry whose service code "99" has no mapping. -/
def unmappedShipment : UpsRatedShipment :=
  { Service := { Code := "99", Description := "Mystery service" },
    RatedPackage := [{ BaseServiceCharge := some { MonetaryValue := 25 } }] }

/-- The quote `unmappedShipment` normalizes to: GROUND by default. -/
def unmappedQuote : RateQuote :=
  { carrier := "ups", serviceLevel := .GROUND, baseCharge := 25,
    finalCharge := 25, currency := .USD }

/-- Witness for C8: with entries [shipment45, malformedShipment,
unmappedShipment] the malformed one is skipped while both others
contribute, and the unmapped code "99" yields GROUND. -/
theorem c8_witness :
    (∃ r, parseUpsResponse
        { Response := some { ResponseStatus := { Code := "0", Description := "Success" } },
          RatedShipment := some ([shipment45] ++ malformedShipment :: [unmappedShipment]) } =
          .ok r ∧
      r.quotes = ([shipment45] ++ [unmappedShipment]).filterMap
        (fun s => (parseRatedShipment s).toOption) ∧
      r.quotes.length = [shipment45].length + [unmappedShipment].length) ∧
    unmappedQuote.serviceLevel = .GROUND :=
  ⟨c8_parse_isolation.1 { ResponseStatus := { Code := "0", Description := "Success" } }
      [shipment45] [unmappedShipment] malformedShipment rfl
      (by simp [parseRatedShipment, malformedShipment, malformedCharges, addPackageCharge,
        Bind.bind, Except.bind, Pure.pure, Except.pure, Except.toOption])
      (by intro s hs
          simp only [List.mem_singleton] at hs
          subst hs
          simp [parseRatedShipment, shipment45, addPackageCharge, UPS_SERVICE_CODE_MAP,
            Bind.bind, Except.bind, Pure.pure, Except.pure, Except.toOption])
      (by intro s hs
          simp only [List.mem_singleton] at hs
          subst hs
          simp [parseRatedShipment, unmappedShipment, addPackageCharge, UPS_SERVICE_CODE_MAP,
            Bind.bind, Except.bind, Pure.pure, Except.pure, Except.toOption]),
   c8_parse_isolation.2 unmappedShipment unmappedQuote rfl
      (by simp [parseRatedShipment, unmappedShipment, unmappedQuote, addPackageCharge,
        UPS_SERVICE_CODE_MAP, Bind.bind, Except.bind, Pure.pure, Except.pure])⟩

end CarrierIntegration
